import Mathlib

/-!
Shallow embedding of the WebRTC signaling and peer-connection orchestration
layer of `src/frontend/src/contexts/WebRTCContext.js`, together with proofs
about its state machine, reducer, message router and public session API.

Media streams, tracks and session descriptions are modelled as concrete
data (identifiers and SDP text); the browser's side effects (messages
emitted on the signaling socket, operations performed on peer-connection
objects, tracks stopped, sockets disconnected) are recorded in an explicit
`Effects` record so that ordering and frame properties can be stated.
-/

namespace WebRTC

/-- A media track is identified by a numeric handle. -/
abbrev Track := Nat

/-- Model of a `MediaStream`: an identifier plus its list of tracks
(`getTracks()`). -/
structure MediaStream where
  id : Nat
  tracks : List Track
  deriving DecidableEq, Repr

/-- Model of an `RTCSessionDescription`: a type tag (offer/answer) and SDP
text. -/
structure SessionDescription where
  descType : String
  sdp : String
  deriving DecidableEq, Repr

/-- Model of an ICE candidate payload `{ candidate, sdpMLineIndex, sdpMid }`. -/
structure IceCandidate where
  candidate : String
  sdpMLineIndex : Nat
  sdpMid : String
  deriving DecidableEq, Repr

/-- Inbound chat payload `{ user_id, content, timestamp }`. -/
structure ChatMessage where
  user_id : String
  content : String
  timestamp : Nat
  deriving DecidableEq, Repr

/-- The JS value `action.payload` / `data.data` of an envelope, as a closed
sum of the payload shapes the module constructs or consumes. -/
inductive MsgData where
  | desc (d : SessionDescription)
  | ice (c : IceCandidate)
  | chat (m : ChatMessage)
  | chatOut (content : String)
  | errorInfo (message : String)
  | userInfo (user_id : String)
  | empty
  deriving DecidableEq, Repr

/-- An outbound signaling envelope as emitted by
`socketRef.current.emit('message', ...)`: the module's outbound envelopes
carry `type`, `data`, an optional `target_id` and the `stream_id`. -/
structure Envelope where
  type : String
  data : MsgData
  target_id : Option String
  stream_id : Option String
  deriving DecidableEq, Repr

/-- An inbound signaling message as consumed by `handleWebSocketMessage`:
a discriminating `type`, the sender and a typed payload. -/
structure InboundMessage where
  type : String
  sender_id : String
  data : MsgData
  deriving DecidableEq, Repr

/-- The reducer state of `webrtcReducer` (`initialState`'s shape).
`remoteStreams` is the JS object keyed by user id, modelled as an
insertion-ordered association list. -/
structure SessionState where
  localStream : Option MediaStream
  remoteStreams : List (String × MediaStream)
  isStreaming : Bool
  isViewing : Bool
  connectionState : String
  chatMessages : List ChatMessage
  streamInfo : Option String
  viewers : List String
  error : Option String
  isConnected : Bool
  currentStreamId : Option String
  deriving DecidableEq, Repr

/-- `initialState` from the source. -/
def initialState : SessionState :=
  { localStream := none
    remoteStreams := []
    isStreaming := false
    isViewing := false
    connectionState := "disconnected"
    chatMessages := []
    streamInfo := none
    viewers := []
    error := none
    isConnected := false
    currentStreamId := none }

/-- The closed union of reducer action kinds dispatched by the module. -/
inductive Action where
  | setLocalStream (payload : Option MediaStream)
  | addRemoteStream (userId : String) (stream : MediaStream)
  | removeRemoteStream (userId : String)
  | setStreaming (payload : Bool)
  | setViewing (payload : Bool)
  | setConnectionState (payload : String)
  | addChatMessage (message : ChatMessage)
  | setStreamInfo (payload : Option String)
  | updateViewers (payload : List String)
  | setError (payload : Option String)
  | setConnected (payload : Bool)
  | setCurrentStream (payload : Option String)
  | clearChat
  | resetState
  deriving DecidableEq, Repr

/-- JS object spread update `{ ...m, [k]: v }`: replace the value at an
existing key in place, otherwise append the new key at the end. -/
def setAssoc {α : Type} : List (String × α) → String → α → List (String × α)
  | [], k, v => [(k, v)]
  | e :: rest, k, v =>
    if e.1 = k then (k, v) :: rest else e :: setAssoc rest k v

/-- JS destructuring removal `const { [k]: removed, ...rest } = m`. -/
def removeAssoc {α : Type} : List (String × α) → String → List (String × α)
  | [], _ => []
  | e :: rest, k =>
    if e.1 = k then removeAssoc rest k else e :: removeAssoc rest k

/-- JS object lookup `m[k]`. -/
def lookupAssoc {α : Type} : List (String × α) → String → Option α
  | [], _ => none
  | e :: rest, k => if e.1 = k then some e.2 else lookupAssoc rest k

/-- JS `arr.slice(-n)`: the last `n` elements of a list (the whole list
when it is shorter than `n`). -/
def lastN {α : Type} (n : Nat) (l : List α) : List α :=
  l.drop (l.length - n)

/-- `webrtcReducer` from the source, case for case. -/
def webrtcReducer (state : SessionState) (action : Action) : SessionState :=
  match action with
  | .setLocalStream payload => { state with localStream := payload }
  | .addRemoteStream userId stream =>
    { state with remoteStreams := setAssoc state.remoteStreams userId stream }
  | .removeRemoteStream userId =>
    { state with remoteStreams := removeAssoc state.remoteStreams userId }
  | .setStreaming payload => { state with isStreaming := payload }
  | .setViewing payload => { state with isViewing := payload }
  | .setConnectionState payload => { state with connectionState := payload }
  | .addChatMessage message =>
    { state with chatMessages := lastN 100 (state.chatMessages ++ [message]) }
  | .setStreamInfo payload => { state with streamInfo := payload }
  | .updateViewers payload => { state with viewers := payload }
  | .setError payload => { state with error := payload }
  | .setConnected payload => { state with isConnected := payload }
  | .setCurrentStream payload => { state with currentStreamId := payload }
  | .clearChat => { state with chatMessages := [] }
  | .resetState => { initialState with localStream := state.localStream }

/-- A sequence of `ADD_CHAT_MESSAGE` dispatches folded through the reducer. -/
def applyChats (s : SessionState) (msgs : List ChatMessage) : SessionState :=
  msgs.foldl (fun st m => webrtcReducer st (.addChatMessage m)) s

/-- Model of the signaling socket held in `socketRef.current`: the stream id
it was opened for and whether the transport is currently connected.
`disconnect()` clears the connected flag but the ref keeps pointing at the
socket object, as in the source. -/
structure Socket where
  sessionId : String
  connected : Bool
  deriving DecidableEq, Repr

/-- Model of an `RTCPeerConnection` object: the descriptions applied to it,
the tracks added (in order), the ICE candidates applied, and whether
`close()` was called. A freshly constructed connection has all fields
empty. -/
structure PeerConnection where
  remoteDescription : Option SessionDescription := none
  localDescription : Option SessionDescription := none
  addedTracks : List Track := []
  appliedCandidates : List IceCandidate := []
  closed : Bool := false
  deriving DecidableEq, Repr

/-- An operation performed on a peer-connection object, recorded in order
so that the negotiation sequencing can be stated. -/
inductive PCOp where
  | setRemoteDesc (userId : String) (d : SessionDescription)
  | addTrack (userId : String) (track : Track) (streamId : Nat)
  | createAnswer (userId : String)
  | setLocalDesc (userId : String) (d : SessionDescription)
  | addIceCandidate (userId : String) (c : IceCandidate)
  deriving DecidableEq, Repr

/-- The observable side effects of one entry-point invocation: envelopes
emitted on the socket, operations on peer-connection objects, which peer
connections were newly constructed (with the `isInitiator` argument they
were constructed with), which were closed, which media tracks had `stop()`
called, how many times the socket was disconnected, and console logs. -/
structure Effects where
  sent : List Envelope := []
  pcOps : List PCOp := []
  createdPeers : List (String × Bool) := []
  closedPeers : List String := []
  stoppedTracks : List Track := []
  socketDisconnects : Nat := 0
  logs : List String := []
  deriving DecidableEq, Repr

/-- The mutable world of the provider: the reducer state, the
`peerConnectionsRef` map (insertion-ordered, keys unique) and the
`socketRef`. -/
structure World where
  state : SessionState
  peerConnections : List (String × PeerConnection)
  socket : Option Socket
  deriving DecidableEq, Repr

/-- The world before any event: initial reducer state, no peer
connections, no socket. -/
def initialWorld : World :=
  { state := initialState, peerConnections := [], socket := none }

/-- Replace the peer connection stored under an existing key. -/
def setPC : List (String × PeerConnection) → String → PeerConnection →
    List (String × PeerConnection)
  | [], _, _ => []
  | e :: rest, userId, pc =>
    if e.1 = userId then (e.1, pc) :: rest else e :: setPC rest userId pc

/-- Abstract model of the browser's `createAnswer()`: the answer is
determined by the negotiation performed so far on the connection — in
particular the media lines it declares are determined by the tracks that
were attached before it was generated. -/
def createAnswer (pc : PeerConnection) : SessionDescription :=
  { descType := "answer"
    sdp := String.intercalate "," (pc.addedTracks.map toString) }

/-- `createPeerConnection(userId, isInitiator)`: returns the existing
connection for the user if there is one, otherwise constructs a fresh one
and stores it under the user's key. The `isInitiator` argument is recorded
only in the construction effect, as the source never stores it. -/
def createPeerConnection (pcs : List (String × PeerConnection))
    (userId : String) (isInitiator : Bool) :
    List (String × PeerConnection) × PeerConnection × Effects :=
  match lookupAssoc pcs userId with
  | some pc => (pcs, pc, {})
  | none => (pcs ++ [(userId, {})], {}, { createdPeers := [(userId, isInitiator)] })

/-- The tracks of the current local stream, `state.localStream.getTracks()`
(empty when there is no local stream). -/
def localTracks (w : World) : List Track :=
  match w.state.localStream with
  | some s => s.tracks
  | none => []

/-- `handleRemoteOffer` (success path): create or reuse the peer
connection for the sender as non-initiator, apply the received description
as remote description, add every local track, generate and apply the
answer, and emit it to the sender when a socket exists. -/
def handleRemoteOffer (w : World) (sender_id : String)
    (d : SessionDescription) : World × Effects :=
  let r := createPeerConnection w.peerConnections sender_id false
  let pc1 : PeerConnection := { r.2.1 with remoteDescription := some d }
  let tracks := localTracks w
  let pc2 : PeerConnection := { pc1 with addedTracks := pc1.addedTracks ++ tracks }
  let answer := createAnswer pc2
  let pc3 : PeerConnection := { pc2 with localDescription := some answer }
  let streamNum := match w.state.localStream with
    | some s => s.id
    | none => 0
  let ops := PCOp.setRemoteDesc sender_id d ::
    (tracks.map (fun t => PCOp.addTrack sender_id t streamNum) ++
      [PCOp.createAnswer sender_id, PCOp.setLocalDesc sender_id answer])
  let sent := if w.socket.isSome then
      [{ type := "answer", data := .desc answer, target_id := some sender_id,
         stream_id := w.state.currentStreamId }]
    else []
  ({ w with peerConnections := setPC r.1 sender_id pc3 },
   { r.2.2 with sent := sent, pcOps := ops })

/-- `handleRemoteAnswer`: apply the description to an existing peer
connection only; do nothing when none exists for the sender. -/
def handleRemoteAnswer (w : World) (sender_id : String)
    (d : SessionDescription) : World × Effects :=
  match lookupAssoc w.peerConnections sender_id with
  | some pc =>
    let pc2 : PeerConnection := { pc with remoteDescription := some d }
    ({ w with peerConnections := setPC w.peerConnections sender_id pc2 },
     { pcOps := [PCOp.setRemoteDesc sender_id d] })
  | none => (w, {})

/-- `handleRemoteIceCandidate`: apply the candidate to an existing peer
connection only; do nothing when none exists for the sender. -/
def handleRemoteIceCandidate (w : World) (sender_id : String)
    (c : IceCandidate) : World × Effects :=
  match lookupAssoc w.peerConnections sender_id with
  | some pc =>
    let pc2 : PeerConnection := { pc with appliedCandidates := pc.appliedCandidates ++ [c] }
    ({ w with peerConnections := setPC w.peerConnections sender_id pc2 },
     { pcOps := [PCOp.addIceCandidate sender_id c] })
  | none => (w, {})

/-- `initializeCamera` (success path): store the newly acquired stream via
`SET_LOCAL_STREAM`. The source stops no tracks of a previously held
stream. -/
def initializeCamera (w : World) (stream : MediaStream) : World × Effects :=
  ({ w with state := webrtcReducer w.state (.setLocalStream (some stream)) }, {})

/-- `sendChatMessage`: emit a trimmed `chat_message` envelope when a socket
exists and the state is connected; otherwise do nothing. Never dispatches
any reducer action. -/
def sendChatMessage (w : World) (message : String) : World × Effects :=
  if w.socket.isSome ∧ w.state.isConnected then
    (w, { sent := [{ type := "chat_message", data := .chatOut message.trim,
                     target_id := none,
                     stream_id := w.state.currentStreamId }] })
  else (w, {})

/-- `connectWebSocket(streamId)`: disconnect a previously held socket, then
install a fresh, not-yet-connected socket for the stream. -/
def connectWebSocket (w : World) (streamId : String) : World × Effects :=
  ({ w with socket := some ({ sessionId := streamId, connected := false }) },
   { socketDisconnects := if w.socket.isSome then 1 else 0 })

/-- The socket's `connect` event: mark the transport connected and dispatch
`SET_CONNECTED true` and `SET_CURRENT_STREAM`. -/
def onSocketConnect (w : World) : World :=
  match w.socket with
  | some s =>
    let st := webrtcReducer (webrtcReducer w.state (.setConnected true)) (.setCurrentStream (some s.sessionId))
    { w with socket := some ({ s with connected := true }), state := st }
  | none => w

/-- The socket's `disconnect` event: dispatch `SET_CONNECTED false`. -/
def onSocketDisconnect (w : World) : World :=
  { w with state := webrtcReducer w.state (.setConnected false) }

/-- `stopStreaming`: stop every local track, close every peer connection,
clear the registry, disconnect the socket and dispatch `RESET_STATE`. -/
def stopStreaming (w : World) : World × Effects :=
  ({ state := webrtcReducer w.state .resetState
     peerConnections := []
     socket := w.socket.map (fun s => { s with connected := false }) },
   { stoppedTracks := localTracks w
     closedPeers := w.peerConnections.map Prod.fst
     socketDisconnects := if w.socket.isSome then 1 else 0 })

/-- `stopViewing`: close every peer connection, clear the registry,
disconnect the socket, and dispatch `SET_VIEWING false`, `SET_CONNECTED
false` and `SET_CONNECTION_STATE 'disconnected'`. -/
def stopViewing (w : World) : World × Effects :=
  let st := webrtcReducer (webrtcReducer (webrtcReducer w.state (.setViewing false)) (.setConnected false)) (.setConnectionState "disconnected")
  ({ state := st
     peerConnections := []
     socket := w.socket.map (fun s => { s with connected := false }) },
   { closedPeers := w.peerConnections.map Prod.fst
     socketDisconnects := if w.socket.isSome then 1 else 0 })

/-- `cleanupPeerConnection(userId)`: when a connection exists for the user,
close it, delete it from the registry and dispatch
`REMOVE_REMOTE_STREAM`. -/
def cleanupPeerConnection (w : World) (userId : String) : World × Effects :=
  match lookupAssoc w.peerConnections userId with
  | some _ =>
    let st := webrtcReducer w.state (.removeRemoteStream userId)
    ({ w with peerConnections := removeAssoc w.peerConnections userId, state := st },
     { closedPeers := [userId] })
  | none => (w, {})

/-- A peer connection's `onconnectionstatechange` callback: dispatch the
connection's transport state into `SET_CONNECTION_STATE`, then tear the
connection down when that state is `failed` or `closed`. Fires only for a
connection present in the registry. -/
def onConnectionStateChange (w : World) (userId : String) (cs : String) :
    World × Effects :=
  match lookupAssoc w.peerConnections userId with
  | some _ =>
    let w1 : World := { w with state := webrtcReducer w.state (.setConnectionState cs) }
    if cs = "failed" ∨ cs = "closed" then cleanupPeerConnection w1 userId
    else (w1, {})
  | none => (w, {})

/-- A peer connection's `ontrack` callback: dispatch `ADD_REMOTE_STREAM`
for the arriving stream. Fires only for a connection present in the
registry. -/
def onTrack (w : World) (userId : String) (stream : MediaStream) : World :=
  match lookupAssoc w.peerConnections userId with
  | some _ =>
    { w with state := webrtcReducer w.state (.addRemoteStream userId stream) }
  | none => w

/-- `startStreaming` (success path): clear the error, acquire the camera,
open the signaling socket, set the streaming flag and enter `connecting`. -/
def startStreaming (w : World) (streamId : String) (stream : MediaStream) :
    World × Effects :=
  let s1 := webrtcReducer w.state (.setError none)
  let r1 := initializeCamera { w with state := s1 } stream
  let r2 := connectWebSocket r1.1 streamId
  let s2 := webrtcReducer r2.1.state (.setStreaming true)
  let s3 := webrtcReducer s2 (.setConnectionState "connecting")
  ({ r2.1 with state := s3 }, r2.2)

/-- `joinStream` (success path): clear the error and the chat log, open the
signaling socket, set the viewing flag and enter `connecting`. -/
def joinStream (w : World) (streamId : String) : World × Effects :=
  let s1 := webrtcReducer (webrtcReducer w.state (.setError none)) .clearChat
  let r := connectWebSocket { w with state := s1 } streamId
  let s2 := webrtcReducer r.1.state (.setViewing true)
  let s3 := webrtcReducer s2 (.setConnectionState "connecting")
  ({ r.1 with state := s3 }, r.2)

/-- `handleWebSocketMessage`: route an inbound envelope by its `type`.
Envelopes whose payload does not fit the shape their handler consumes are
caught and dropped with a log, as in the source's try/catch. -/
def handleWebSocketMessage (w : World) (msg : InboundMessage) :
    World × Effects :=
  if msg.type = "offer" then
    match msg.data with
    | .desc d => handleRemoteOffer w msg.sender_id d
    | _ => (w, { logs := ["Error handling WebSocket message"] })
  else if msg.type = "answer" then
    match msg.data with
    | .desc d => handleRemoteAnswer w msg.sender_id d
    | _ => (w, { logs := ["Error handling WebSocket message"] })
  else if msg.type = "ice_candidate" then
    match msg.data with
    | .ice c => handleRemoteIceCandidate w msg.sender_id c
    | _ => (w, { logs := ["Error handling WebSocket message"] })
  else if msg.type = "chat_message" then
    match msg.data with
    | .chat m =>
      ({ w with state := webrtcReducer w.state (.addChatMessage m) }, {})
    | _ => (w, { logs := ["Error handling WebSocket message"] })
  else if msg.type = "user_joined" then (w, { logs := ["User joined"] })
  else if msg.type = "user_left" then (w, { logs := ["User left"] })
  else if msg.type = "stream_started" then (w, { logs := ["Stream started"] })
  else if msg.type = "stream_ended" then
    let r := stopViewing w
    (r.1, { r.2 with logs := "Stream ended" :: r.2.logs })
  else if msg.type = "error" then
    match msg.data with
    | .errorInfo m =>
      ({ w with state := webrtcReducer w.state (.setError (some m)) }, {})
    | _ => (w, { logs := ["Error handling WebSocket message"] })
  else (w, { logs := ["Unknown message type"] })

/-- The possible values of `RTCPeerConnection.connectionState`, which
`onconnectionstatechange` dispatches verbatim into
`SET_CONNECTION_STATE`. -/
def rtcConnectionStates : List String :=
  ["new", "connecting", "connected", "disconnected", "failed", "closed"]

/-- The connection-state vocabulary prescribed by the spec's state
machine. -/
def specConnectionStates : List String :=
  ["disconnected", "connecting", "connected", "streaming", "viewing"]

/-- The event-level transition system of the module: a world is reachable
when it arises from the initial world by public API calls, socket lifecycle
events, inbound signaling messages, and peer-connection callbacks (whose
transport state ranges over `rtcConnectionStates`). -/
inductive Reachable : World → Prop where
  | init : Reachable initialWorld
  | startStream {w : World} (streamId : String) (stream : MediaStream) :
      Reachable w → Reachable (startStreaming w streamId stream).1
  | joinStr {w : World} (streamId : String) :
      Reachable w → Reachable (joinStream w streamId).1
  | stopStr {w : World} : Reachable w → Reachable (stopStreaming w).1
  | stopView {w : World} : Reachable w → Reachable (stopViewing w).1
  | camInit {w : World} (stream : MediaStream) :
      Reachable w → Reachable (initializeCamera w stream).1
  | camFail {w : World} :
      Reachable w →
      Reachable { w with state := webrtcReducer w.state (.setError (some "Failed to access camera/microphone")) }
  | sockConnect {w : World} : Reachable w → Reachable (onSocketConnect w)
  | sockDisconnect {w : World} : Reachable w → Reachable (onSocketDisconnect w)
  | wsMsg {w : World} (msg : InboundMessage) :
      Reachable w → Reachable (handleWebSocketMessage w msg).1
  | sendChat {w : World} (text : String) :
      Reachable w → Reachable (sendChatMessage w text).1
  | pcStateChange {w : World} (userId cs : String) :
      cs ∈ rtcConnectionStates → Reachable w →
      Reachable (onConnectionStateChange w userId cs).1
  | pcTrack {w : World} (userId : String) (stream : MediaStream) :
      Reachable w → Reachable (onTrack w userId stream)

/-- A concrete list of 101 chat messages. -/
def msgs101 : List ChatMessage :=
  (List.range 101).map (fun i => { user_id := "u", content := "c", timestamp := i })

/-- A concrete stream from a remote peer. -/
def aliceStream : MediaStream := { id := 5, tracks := [7] }

/-- A concrete world in the middle of a viewing session, with one peer
connection and its mirrored remote stream entry. -/
def viewingWorld : World :=
  { state := { initialState with
      remoteStreams := [("alice", aliceStream)]
      isViewing := true
      isConnected := true
      connectionState := "connected"
      currentStreamId := some "s1" }
    peerConnections := [("alice", {})]
    socket := some { sessionId := "s1", connected := true } }

/-- A concrete world that already owns a local capture stream. -/
def camWorld : World :=
  { state := { initialState with localStream := some { id := 1, tracks := [10, 11] } }
    peerConnections := []
    socket := none }

/-- A freshly acquired capture stream to replace the one in `camWorld`. -/
def newCamStream : MediaStream := { id := 2, tracks := [20] }

/-- A concrete connected world used to exercise the chat and offer paths. -/
def connectedWorld : World :=
  { state := { initialState with
      localStream := some { id := 1, tracks := [4, 5] }
      isStreaming := true
      isConnected := true
      connectionState := "connected"
      currentStreamId := some "s1" }
    peerConnections := []
    socket := some { sessionId := "s1", connected := true } }

/-- A concrete remote offer description. -/
def offerDesc : SessionDescription := { descType := "offer", sdp := "v=0" }

/-- The world after `startStreaming` from the initial world. -/
def streamingWorld : World :=
  (startStreaming initialWorld "s1" { id := 1, tracks := [2] }).1

/-- `streamingWorld` after an inbound offer from `alice` created a peer
connection. -/
def offeredWorld : World :=
  (handleWebSocketMessage streamingWorld
    { type := "offer", sender_id := "alice", data := .desc offerDesc }).1

/-- `offeredWorld` after `alice`'s peer connection reported the transport
state `failed`. -/
def failedWorld : World :=
  (onConnectionStateChange offeredWorld "alice" "failed").1

theorem lastN_eq_reverse_take {α : Type} (n : Nat) (l : List α) :
    lastN n l = (l.reverse.take n).reverse := by
  unfold lastN
  induction l with
  | nil => simp
  | cons a t ih =>
    rcases Nat.lt_or_ge t.length n with h | h
    · have hlen : (a :: t).length - n = 0 := by
        simp only [List.length_cons]
        omega
      rw [hlen]
      have htake : (a :: t).reverse.take n = (a :: t).reverse := by
        apply List.take_of_length_le
        simp only [List.length_reverse, List.length_cons]
        omega
      rw [htake]
      simp
    · have hlen : (a :: t).length - n = (t.length - n) + 1 := by
        simp only [List.length_cons]
        omega
      rw [hlen, List.drop_succ_cons, ih]
      have : (a :: t).reverse.take n = t.reverse.take n := by
        rw [List.reverse_cons, List.take_append_of_le_length]
        simp only [List.length_reverse]
        omega
      rw [this]

theorem lastN_length_le {α : Type} (n : Nat) (l : List α) :
    (lastN n l).length ≤ n := by
  rw [lastN_eq_reverse_take]
  simp [List.length_take]

theorem lastN_of_length_le {α : Type} (n : Nat) (l : List α)
    (h : l.length ≤ n) : lastN n l = l := by
  unfold lastN
  have : l.length - n = 0 := by omega
  simp [this]

theorem lastN_append_lastN {α : Type} (n : Nat) (l l2 : List α) :
    lastN n (lastN n l ++ l2) = lastN n (l ++ l2) := by
  rw [lastN_eq_reverse_take, lastN_eq_reverse_take, lastN_eq_reverse_take]
  rw [List.reverse_append, List.reverse_reverse, List.reverse_append]
  congr 1
  rw [List.take_append_eq_append_take, List.take_append_eq_append_take]
  congr 1
  rw [List.take_take]
  congr 1
  omega

theorem applyChats_chatMessages (s : SessionState) (msgs : List ChatMessage)
    (h : s.chatMessages.length ≤ 100) :
    (applyChats s msgs).chatMessages = lastN 100 (s.chatMessages ++ msgs) := by
  induction msgs generalizing s with
  | nil =>
    simp [applyChats]
    exact (lastN_of_length_le 100 s.chatMessages h).symm
  | cons m ms ih =>
    have step : applyChats s (m :: ms) =
        applyChats (webrtcReducer s (.addChatMessage m)) ms := rfl
    rw [step, ih]
    · show lastN 100 (lastN 100 (s.chatMessages ++ [m]) ++ ms) = _
      rw [lastN_append_lastN]
      simp
    · exact lastN_length_le 100 _

/-- C2: every sequence of chat appends keeps the log at length at most 100,
and after more than 100 appends the log is exactly the last 100 messages
appended, in arrival order. -/
theorem chat_log_sliding_window :
    (∀ msgs : List ChatMessage,
      (applyChats initialState msgs).chatMessages.length ≤ 100) ∧
    (∀ msgs : List ChatMessage, 100 < msgs.length →
      (applyChats initialState msgs).chatMessages =
        msgs.drop (msgs.length - 100)) := by
  constructor
  · intro msgs
    rw [applyChats_chatMessages initialState msgs (by simp [initialState])]
    exact lastN_length_le 100 _
  · intro msgs h
    rw [applyChats_chatMessages initialState msgs (by simp [initialState])]
    simp [initialState, lastN]

/-- Witness for C2 at a concrete run of 101 appends. -/
theorem chat_log_sliding_window_witness :
    100 < msgs101.length ∧
    (applyChats initialState msgs101).chatMessages =
      msgs101.drop (msgs101.length - 100) :=
  ⟨by decide, chat_log_sliding_window.2 msgs101 (by decide)⟩

/-- C6: the `RESET_STATE` transition preserves `localStream` exactly and
sets every other field to its value in `initialState`. -/
theorem reset_preserves_local_stream_only (s : SessionState) :
    webrtcReducer s .resetState =
      { initialState with localStream := s.localStream } ∧
    (webrtcReducer s .resetState).localStream = s.localStream ∧
    (webrtcReducer s .resetState).remoteStreams = [] ∧
    (webrtcReducer s .resetState).isStreaming = false ∧
    (webrtcReducer s .resetState).isViewing = false ∧
    (webrtcReducer s .resetState).connectionState = "disconnected" ∧
    (webrtcReducer s .resetState).chatMessages = [] ∧
    (webrtcReducer s .resetState).streamInfo = none ∧
    (webrtcReducer s .resetState).viewers = [] ∧
    (webrtcReducer s .resetState).error = none ∧
    (webrtcReducer s .resetState).isConnected = false ∧
    (webrtcReducer s .resetState).currentStreamId = none := by
  refine ⟨rfl, rfl, rfl, rfl, rfl, rfl, rfl, rfl, rfl, rfl, rfl, rfl⟩

/-- C4 counterexample: acquiring a new capture stream while `camWorld`
already owns one replaces the stored stream without stopping any track of
the previous stream. -/
theorem initializeCamera_no_release :
    camWorld.state.localStream = some { id := 1, tracks := [10, 11] } ∧
    (initializeCamera camWorld newCamStream).1.state.localStream = some newCamStream ∧
    (initializeCamera camWorld newCamStream).2.stoppedTracks = [] :=
  ⟨rfl, rfl, rfl⟩

/-- C4 amended: storing a newly acquired capture stream overwrites
`localStream` and changes nothing else; in particular no track of a
previously held stream is stopped. -/
theorem initializeCamera_overwrites_without_release (w : World) (ns : MediaStream) :
    (initializeCamera w ns).1.state = { w.state with localStream := some ns } ∧
    (initializeCamera w ns).1.peerConnections = w.peerConnections ∧
    (initializeCamera w ns).1.socket = w.socket ∧
    (initializeCamera w ns).2.stoppedTracks = [] ∧
    (initializeCamera w ns).2 = {} :=
  ⟨rfl, rfl, rfl, rfl, rfl⟩

/-- C5: stopping the stream twice yields the same world as stopping it
once, and the resulting session state is the reset state. -/
theorem stopStreaming_idempotent (w : World) :
    (stopStreaming (stopStreaming w).1).1 = (stopStreaming w).1 ∧
    (stopStreaming w).1.state = webrtcReducer w.state .resetState ∧
    (stopStreaming (stopStreaming w).1).1.state = webrtcReducer w.state .resetState := by
  cases hs : w.socket <;>
    simp [stopStreaming, hs, webrtcReducer]

/-- C8: `sendChatMessage` never changes the world (in particular it never
appends to the chat log); it sends nothing when not connected, and when a
socket exists and the state is connected it sends exactly one
`chat_message` envelope carrying the trimmed text and the current stream
id. -/
theorem sendChatMessage_spec (w : World) (text : String) :
    (sendChatMessage w text).1 = w ∧
    (sendChatMessage w text).1.state.chatMessages = w.state.chatMessages ∧
    (w.state.isConnected = false → (sendChatMessage w text).2 = {}) ∧
    (w.socket.isSome = true → w.state.isConnected = true →
      (sendChatMessage w text).2.sent =
        [{ type := "chat_message", data := .chatOut text.trim,
           target_id := none, stream_id := w.state.currentStreamId }]) := by
  unfold sendChatMessage
  by_cases h : w.socket.isSome ∧ w.state.isConnected
  · rw [if_pos h]
    refine ⟨rfl, rfl, ?_, ?_⟩
    · intro hc
      rw [hc] at h
      simp at h
    · intro _ _
      rfl
  · rw [if_neg h]
    refine ⟨rfl, rfl, fun _ => rfl, ?_⟩
    intro hs hc
    exact absurd ⟨hs, hc⟩ h

/-- Witness for C8: a connected world sends the trimmed chat text. -/
theorem sendChatMessage_spec_witness :
    connectedWorld.socket.isSome = true ∧
    connectedWorld.state.isConnected = true ∧
    (sendChatMessage connectedWorld "  hello  ").2.sent =
      [{ type := "chat_message", data := .chatOut "  hello  ".trim,
         target_id := none, stream_id := some "s1" }] :=
  ⟨rfl, rfl, (sendChatMessage_spec connectedWorld "  hello  ").2.2.2 rfl rfl⟩

/-- C9: an `answer` or `ice_candidate` from a participant with no existing
peer connection is silently ignored: the world is unchanged and no effect
is produced. -/
theorem unknown_peer_ignored (w : World) (sender : String)
    (d : SessionDescription) (c : IceCandidate)
    (h : lookupAssoc w.peerConnections sender = none) :
    handleRemoteAnswer w sender d = (w, {}) ∧
    handleRemoteIceCandidate w sender c = (w, {}) := by
  unfold handleRemoteAnswer handleRemoteIceCandidate
  rw [h]
  exact ⟨rfl, rfl⟩

/-- Witness for C9 at the initial world, which has no peer connections. -/
theorem unknown_peer_ignored_witness :
    lookupAssoc initialWorld.peerConnections "alice" = none ∧
    handleRemoteAnswer initialWorld "alice" offerDesc = (initialWorld, {}) ∧
    handleRemoteIceCandidate initialWorld "alice"
      { candidate := "c", sdpMLineIndex := 0, sdpMid := "0" } = (initialWorld, {}) := by
  have h := unknown_peer_ignored initialWorld "alice" offerDesc
    { candidate := "c", sdpMLineIndex := 0, sdpMid := "0" } rfl
  exact ⟨rfl, h.1, h.2⟩

/-- C10: a `stream_started` envelope is log-only: the world is returned
unchanged and the only effect is a console log. -/
theorem stream_started_log_only (w : World) (msg : InboundMessage)
    (h : msg.type = "stream_started") :
    handleWebSocketMessage w msg = (w, { logs := ["Stream started"] }) := by
  unfold handleWebSocketMessage
  rw [h]
  simp

/-- Witness for C10 at the viewing world. -/
theorem stream_started_log_only_witness :
    InboundMessage.type { type := "stream_started", sender_id := "", data := .empty } = "stream_started" ∧
    handleWebSocketMessage viewingWorld
      { type := "stream_started", sender_id := "", data := .empty } =
      (viewingWorld, { logs := ["Stream started"] }) :=
  ⟨rfl, stream_started_log_only viewingWorld
    { type := "stream_started", sender_id := "", data := .empty } rfl⟩

/-- C3 counterexample: in `viewingWorld` a remote stream entry for `alice`
exists; after `stopViewing` the entry is still present and the session
state is not the reset state. -/
theorem stopViewing_leaves_remote_streams :
    (stopViewing viewingWorld).1.state.remoteStreams = [("alice", aliceStream)] ∧
    (stopViewing viewingWorld).1.state ≠ webrtcReducer viewingWorld.state .resetState := by
  exact ⟨rfl, by decide⟩

/-- C3 amended: `stopViewing` (also when forced by a `stream_ended`
envelope) closes every peer connection, empties the registry, disconnects
the signaling socket, and returns `isViewing`, `isConnected` and
`connectionState` to their initial values — but it does not reset the rest
of the session state: remote stream entries (and the chat log, roster and
error) are left exactly as they were. -/
theorem stopViewing_spec (w : World) :
    (stopViewing w).1.peerConnections = [] ∧
    (stopViewing w).2.closedPeers = w.peerConnections.map Prod.fst ∧
    (stopViewing w).2.socketDisconnects = (if w.socket.isSome then 1 else 0) ∧
    (stopViewing w).1.socket = w.socket.map (fun s => { s with connected := false }) ∧
    (stopViewing w).1.state =
      { w.state with isViewing := false, isConnected := false,
                     connectionState := "disconnected" } ∧
    (stopViewing w).1.state.remoteStreams = w.state.remoteStreams ∧
    (∀ msg : InboundMessage, msg.type = "stream_ended" →
      (handleWebSocketMessage w msg).1 = (stopViewing w).1) := by
  refine ⟨rfl, rfl, rfl, rfl, rfl, rfl, ?_⟩
  intro msg h
  unfold handleWebSocketMessage
  rw [h]
  simp

/-- Witness for C3's amended theorem at the concrete viewing world. -/
theorem stopViewing_spec_witness :
    InboundMessage.type { type := "stream_ended", sender_id := "", data := .empty } = "stream_ended" ∧
    (handleWebSocketMessage viewingWorld
      { type := "stream_ended", sender_id := "", data := .empty }).1 =
      (stopViewing viewingWorld).1 :=
  ⟨rfl, (stopViewing_spec viewingWorld).2.2.2.2.2.2
    { type := "stream_ended", sender_id := "", data := .empty } rfl⟩

theorem setPC_keys (l : List (String × PeerConnection)) (k : String)
    (pc : PeerConnection) : (setPC l k pc).map Prod.fst = l.map Prod.fst := by
  induction l with
  | nil => rfl
  | cons e rest ih =>
    by_cases he : e.1 = k
    · simp [setPC, he]
    · simp [setPC, he, ih]

theorem lookupAssoc_setPC {l : List (String × PeerConnection)} {k : String}
    (pc : PeerConnection) (h : (lookupAssoc l k).isSome = true) :
    lookupAssoc (setPC l k pc) k = some pc := by
  induction l with
  | nil => simp [lookupAssoc] at h
  | cons e rest ih =>
    by_cases he : e.1 = k
    · simp [setPC, lookupAssoc, he]
    · have hr : (lookupAssoc rest k).isSome = true := by
        have hstep : lookupAssoc (e :: rest) k = lookupAssoc rest k := by
          simp [lookupAssoc, he]
        rwa [hstep] at h
      simp only [setPC, he, if_false]
      have hstep2 : lookupAssoc (e :: setPC rest k pc) k =
          lookupAssoc (setPC rest k pc) k := by
        simp [lookupAssoc, he]
      rw [hstep2]
      exact ih hr

theorem lookupAssoc_append_self {l : List (String × PeerConnection)}
    {k : String} (v : PeerConnection) (h : lookupAssoc l k = none) :
    lookupAssoc (l ++ [(k, v)]) k = some v := by
  induction l with
  | nil => simp [lookupAssoc]
  | cons e rest ih =>
    have hu : lookupAssoc (e :: rest) k =
        if e.1 = k then some e.2 else lookupAssoc rest k := rfl
    rw [hu] at h
    by_cases he : e.1 = k
    · rw [if_pos he] at h
      exact absurd h (by simp)
    · rw [if_neg he] at h
      rw [List.cons_append]
      have hu2 : lookupAssoc (e :: (rest ++ [(k, v)])) k =
          if e.1 = k then some e.2 else lookupAssoc (rest ++ [(k, v)]) k := rfl
      rw [hu2, if_neg he]
      exact ih h

theorem handleRemoteOffer_pcOps (w : World) (sender : String)
    (d : SessionDescription) :
    ∃ sid answer,
      (handleRemoteOffer w sender d).2.pcOps =
        PCOp.setRemoteDesc sender d ::
          ((localTracks w).map (fun t => PCOp.addTrack sender t sid) ++
            [PCOp.createAnswer sender, PCOp.setLocalDesc sender answer]) :=
  ⟨_, _, rfl⟩

theorem handleRemoteOffer_remoteDesc (w : World) (sender : String)
    (d : SessionDescription) (pc : PeerConnection)
    (hpc : lookupAssoc (handleRemoteOffer w sender d).1.peerConnections sender =
      some pc) : pc.remoteDescription = some d := by
  rcases hl : lookupAssoc w.peerConnections sender with _ | pc0
  · simp only [handleRemoteOffer, createPeerConnection, hl] at hpc
    rw [lookupAssoc_setPC _ (by rw [lookupAssoc_append_self _ hl]; rfl)] at hpc
    injection hpc with he
    rw [← he]
  · simp only [handleRemoteOffer, createPeerConnection, hl] at hpc
    rw [lookupAssoc_setPC _ (by rw [hl]; rfl)] at hpc
    injection hpc with he
    rw [← he]

/-- C1: on an inbound offer (with a live socket and synchronous
negotiation success) the handler creates a peer connection for the sender
in the non-initiator role when none exists and reuses the existing one
otherwise, applies the received description as remote description, attaches
every local track strictly before generating the answer, and sends exactly
one `answer` envelope, addressed to the sender and tagged with the current
stream id. -/
theorem offer_answer_negotiation (w : World) (sender : String)
    (d : SessionDescription) (hsock : w.socket.isSome = true) :
    ((handleRemoteOffer w sender d).2.sent.map
        (fun e => (e.type, e.target_id, e.stream_id))) =
      [("answer", some sender, w.state.currentStreamId)] ∧
    (lookupAssoc w.peerConnections sender = none →
      (handleRemoteOffer w sender d).2.createdPeers = [(sender, false)] ∧
      (handleRemoteOffer w sender d).1.peerConnections.map Prod.fst =
        w.peerConnections.map Prod.fst ++ [sender]) ∧
    ((lookupAssoc w.peerConnections sender).isSome = true →
      (handleRemoteOffer w sender d).2.createdPeers = [] ∧
      (handleRemoteOffer w sender d).1.peerConnections.map Prod.fst =
        w.peerConnections.map Prod.fst) ∧
    (∀ pc, lookupAssoc (handleRemoteOffer w sender d).1.peerConnections sender =
        some pc → pc.remoteDescription = some d) ∧
    (∃ pre post,
      (handleRemoteOffer w sender d).2.pcOps =
        pre ++ PCOp.createAnswer sender :: post ∧
      (∀ t ∈ localTracks w, ∃ sid, PCOp.addTrack sender t sid ∈ pre) ∧
      (∀ u t sid, PCOp.addTrack u t sid ∈ (handleRemoteOffer w sender d).2.pcOps →
        PCOp.addTrack u t sid ∈ pre)) := by
  refine ⟨?_, ?_, ?_, ?_, ?_⟩
  · rcases hl : lookupAssoc w.peerConnections sender with _ | pc0 <;>
      simp [handleRemoteOffer, createPeerConnection, hl, hsock]
  · intro hl
    constructor
    · simp [handleRemoteOffer, createPeerConnection, hl]
    · simp [handleRemoteOffer, createPeerConnection, hl, setPC_keys]
  · intro hl
    rcases hsome : lookupAssoc w.peerConnections sender with _ | pc0
    · rw [hsome] at hl
      simp at hl
    · constructor
      · simp [handleRemoteOffer, createPeerConnection, hsome]
      · simp [handleRemoteOffer, createPeerConnection, hsome, setPC_keys]
  · intro pc hpc
    exact handleRemoteOffer_remoteDesc w sender d pc hpc
  · obtain ⟨sid0, ans0, hops⟩ := handleRemoteOffer_pcOps w sender d
    refine ⟨PCOp.setRemoteDesc sender d ::
        (localTracks w).map (fun t => PCOp.addTrack sender t sid0),
      [PCOp.setLocalDesc sender ans0], ?_, ?_, ?_⟩
    · rw [hops]
      simp
    · intro t ht
      refine ⟨sid0, ?_⟩
      simp only [List.mem_cons, List.mem_map]
      exact Or.inr ⟨t, ht, rfl⟩
    · intro u t sid h
      rw [hops] at h
      simp only [List.mem_cons, List.mem_append, List.mem_singleton] at h
      rcases h with h | h | h | h
      · simp at h
      · exact List.mem_cons_of_mem _ h
      · simp at h
      · simp at h

/-- Witness for C1: the connected streaming world answers a concrete
offer from `alice`. -/
theorem offer_answer_negotiation_witness :
    connectedWorld.socket.isSome = true ∧
    ((handleRemoteOffer connectedWorld "alice" offerDesc).2.sent.map
        (fun e => (e.type, e.target_id, e.stream_id))) =
      [("answer", some "alice", connectedWorld.state.currentStreamId)] :=
  ⟨rfl, (offer_answer_negotiation connectedWorld "alice" offerDesc rfl).1⟩

theorem handleWebSocketMessage_connState (w : World) (msg : InboundMessage) :
    (handleWebSocketMessage w msg).1.state.connectionState =
      w.state.connectionState ∨
    (handleWebSocketMessage w msg).1.state.connectionState = "disconnected" := by
  unfold handleWebSocketMessage handleRemoteOffer handleRemoteAnswer handleRemoteIceCandidate stopViewing
  repeat' split
  all_goals first | (left; rfl) | (right; rfl)

theorem onConnectionStateChange_connState (w : World) (uid cs : String) :
    (onConnectionStateChange w uid cs).1.state.connectionState = cs ∨
    (onConnectionStateChange w uid cs).1.state.connectionState =
      w.state.connectionState := by
  rcases hl : lookupAssoc w.peerConnections uid with _ | pc
  · simp [onConnectionStateChange, hl]
  · simp only [onConnectionStateChange, cleanupPeerConnection, hl]
    split
    · left
      rfl
    · left
      rfl

theorem onTrack_connState (w : World) (uid : String) (s : MediaStream) :
    (onTrack w uid s).state.connectionState = w.state.connectionState := by
  unfold onTrack
  split
  · rfl
  · rfl

theorem sendChatMessage_world (w : World) (text : String) :
    (sendChatMessage w text).1 = w := by
  unfold sendChatMessage
  split
  · rfl
  · rfl

theorem onSocketConnect_connState (w : World) :
    (onSocketConnect w).state.connectionState = w.state.connectionState := by
  unfold onSocketConnect
  split
  · rfl
  · rfl

/-- C7 counterexample: a genuine execution — `startStreaming`, an inbound
offer creating a peer connection, then the peer connection's transport
reporting `failed` — reaches a session state whose `connectionState` is
`failed`, which is outside the spec's prescribed vocabulary. -/
theorem connectionState_escapes_spec_vocabulary :
    Reachable failedWorld ∧
    failedWorld.state.connectionState = "failed" ∧
    "failed" ∉ specConnectionStates :=
  ⟨Reachable.pcStateChange "alice" "failed" (by decide)
      (Reachable.wsMsg { type := "offer", sender_id := "alice", data := .desc offerDesc }
        (Reachable.startStream "s1" { id := 1, tracks := [2] } Reachable.init)),
    by decide, by decide⟩

/-- C7 amended: in every reachable session state, `connectionState` ranges
over the transport vocabulary `{new, connecting, connected, disconnected,
failed, closed}` (the values of `RTCPeerConnection.connectionState`, which
also contains the initial `disconnected` and the API-set `connecting`);
the spec's `streaming`/`viewing` never appear as `connectionState` values,
while `new`, `failed` and `closed` can. -/
theorem reachable_connectionState_in_rtc {w : World} (h : Reachable w) :
    w.state.connectionState ∈ rtcConnectionStates := by
  induction h with
  | init => decide
  | startStream streamId stream _ _ =>
    exact (by decide : ("connecting" : String) ∈ rtcConnectionStates)
  | joinStr streamId _ _ =>
    exact (by decide : ("connecting" : String) ∈ rtcConnectionStates)
  | stopStr _ _ =>
    exact (by decide : ("disconnected" : String) ∈ rtcConnectionStates)
  | stopView _ _ =>
    exact (by decide : ("disconnected" : String) ∈ rtcConnectionStates)
  | camInit stream _ ih => exact ih
  | camFail _ ih => exact ih
  | sockConnect _ ih =>
    rw [onSocketConnect_connState]
    exact ih
  | sockDisconnect _ ih => exact ih
  | wsMsg msg _ ih =>
    rcases handleWebSocketMessage_connState _ msg with hc | hc
    · rw [hc]
      exact ih
    · rw [hc]
      decide
  | sendChat text _ ih =>
    rw [sendChatMessage_world]
    exact ih
  | pcStateChange userId cs hcs _ ih =>
    rcases onConnectionStateChange_connState _ userId cs with hc | hc
    · rw [hc]
      exact hcs
    · rw [hc]
      exact ih
  | pcTrack userId stream _ ih =>
    rw [onTrack_connState]
    exact ih

/-- Witness for C7's amended theorem at the initial world. -/
theorem reachable_connectionState_in_rtc_witness :
    initialWorld.state.connectionState ∈ rtcConnectionStates :=
  reachable_connectionState_in_rtc Reachable.init

end WebRTC
